import Mathlib

/-!
# ChatClient (`frontend/src/services/api.js`)

A shallow embedding of the module `services/api.js` and of the part of the
JavaScript run time it relies on: values, parameter binding with a default
value, `async`/`await` over a promise returned by the HTTP transport,
`try`/`catch`, `throw` and `console.error`.

An `async` function body is embedded as a term of `Prog`: a tree whose nodes are
the effects the body performs, in program order.  Two interpreters run such a
tree: `run` awaits every request before going on (one call at a time), and
`Pool` keeps several calls in flight and settles their requests in any order.
-/

namespace ChatClient

/-! ## JavaScript values -/

/-- JavaScript values that can reach the client: the primitives, arrays and plain
objects.  A number is carried as the bit pattern of its double; the client never
computes on one. -/
inductive JsVal where
  | undefined : JsVal
  | null : JsVal
  | bool (b : Bool) : JsVal
  | num (bits : Nat) : JsVal
  | str (s : String) : JsVal
  | arr (items : List JsVal) : JsVal
  | obj (fields : List (String × JsVal)) : JsVal

/-- Binding of a positional parameter: an argument that was not passed is
`undefined`. -/
def param (args : List JsVal) (i : Nat) : JsVal :=
  args.getD i JsVal.undefined

/-- Default parameter value (`p = d` in a parameter list): the default is taken
exactly when the bound argument is `undefined`. -/
def defaultParam (v d : JsVal) : JsVal :=
  match v with
  | JsVal.undefined => d
  | other => other

/-! ## The transport (axios) -/

/-- HTTP method of a request. -/
inductive Method where
  | GET : Method
  | POST : Method
  deriving DecidableEq, Repr

/-- What the client hands to the transport: `axios.post(url, data, config)` or
`axios.get(url, config)`.  `body` is `none` when no data argument is passed and
`config` is `none` when no config argument (headers, query parameters, timeout)
is passed. -/
structure Request where
  method : Method
  url : String
  body : Option JsVal
  config : Option JsVal

/-- The response object a fulfilled axios promise carries. -/
structure Envelope where
  data : JsVal
  status : Nat
  statusText : String
  headers : JsVal

/-- How the promise of a request settles: rejected with an error value, or
fulfilled with a response envelope. -/
abbrev Reply := Except JsVal Envelope

/-- How the promise of an `async` call settles: rejected with the thrown value,
or fulfilled with the returned value. -/
abbrev Outcome := Except JsVal JsVal

/-- One request together with the way it settled. -/
structure Exchange where
  request : Request
  reply : Reply

/-! ## Bodies of `async` functions -/

/-- The body of an `async` function as a tree of its effects. -/
inductive Prog where
  /-- Evaluates `return v`. -/
  | ret (v : JsVal) : Prog
  /-- Evaluates `throw e`. -/
  | throw (e : JsVal) : Prog
  /-- Evaluates `console.error(...args)` and goes on. -/
  | consoleError (args : List JsVal) (next : Prog) : Prog
  /-- Issues a request and suspends until its promise settles. -/
  | request (req : Request) (next : Reply → Prog) : Prog

/-- Evaluates `try { body } catch (error) { handler }`. -/
def tryCatch : Prog → (JsVal → Prog) → Prog
  | Prog.ret v, _ => Prog.ret v
  | Prog.throw e, handler => handler e
  | Prog.consoleError args next, handler =>
      Prog.consoleError args (tryCatch next handler)
  | Prog.request req next, handler =>
      Prog.request req (fun reply => tryCatch (next reply) handler)

/-- Evaluates `const response = await p; next` for the promise `p` of a request:
a rejection is thrown at the `await`, a fulfilment binds `response`. -/
def await (req : Request) (next : Envelope → Prog) : Prog :=
  Prog.request req (fun reply =>
    match reply with
    | Except.error e => Prog.throw e
    | Except.ok response => next response)

/-- Promise of `axios.post(url, data)`. -/
def axios.post (url : String) (data : JsVal) : Request :=
  ⟨Method.POST, url, some data, none⟩

/-- Promise of `axios.get(url)`. -/
def axios.get (url : String) : Request :=
  ⟨Method.GET, url, none, none⟩

/-! ## The module -/

/-- The constant `API_BASE_URL`. -/
def API_BASE_URL : String := "http://localhost:8000/api"

/-- The function `chatAPI.sendMessage`, applied to its argument list. -/
def chatAPI.sendMessage (args : List JsVal) : Prog :=
  let message := param args 0
  let sessionId := defaultParam (param args 1) JsVal.null
  tryCatch
    (await
      (axios.post (API_BASE_URL ++ "/chat")
        (JsVal.obj [("message", message), ("session_id", sessionId)]))
      (fun response => Prog.ret response.data))
    (fun error =>
      Prog.consoleError [JsVal.str "API Error:", error] (Prog.throw error))

/-- The function `chatAPI.checkHealth`; it has no parameters. -/
def chatAPI.checkHealth : Prog :=
  tryCatch
    (await (axios.get (API_BASE_URL ++ "/health"))
      (fun response => Prog.ret response.data))
    (fun error =>
      Prog.consoleError [JsVal.str "Health check failed:", error]
        (Prog.throw error))

/-! ## Running one call at a time -/

/-- The backend behind the transport: given a request and the backend state,
the way the request settles and the next backend state. -/
abbrev Transport (σ : Type) := Request → σ → Reply × σ

/-- Everything outside the client: the backend state, the entries written to the
console so far (each entry is the argument list of one `console.error`), and the
requests issued so far with their replies. -/
structure World (σ : Type) where
  backend : σ
  console : List (List JsVal)
  wire : List Exchange

/-- Runs a body to completion, awaiting each request. -/
def run {σ : Type} (t : Transport σ) : Prog → World σ → Outcome × World σ
  | Prog.ret v, w => (Except.ok v, w)
  | Prog.throw e, w => (Except.error e, w)
  | Prog.consoleError args next, w =>
      run t next ⟨w.backend, w.console ++ [args], w.wire⟩
  | Prog.request req next, w =>
      run t (next (t req w.backend).1)
        ⟨(t req w.backend).2, w.console, w.wire ++ [⟨req, (t req w.backend).1⟩]⟩

/-- The outcome a call owes to the reply of its request: the payload of a
fulfilled reply, the error of a rejected one. -/
def settle : Reply → Outcome
  | Except.ok response => Except.ok response.data
  | Except.error e => Except.error e

/-- Whether a call failed. -/
def failed : Outcome → Bool
  | Except.ok _ => false
  | Except.error _ => true

/-- The console entries a guarded request adds for a reply: one entry, the label
followed by the error, for a rejection, and none for a fulfilment. -/
def failureLog (label : JsVal) : Reply → List (List JsVal)
  | Except.ok _ => []
  | Except.error e => [[label, e]]

/-- Transport of a backend without state that settles every request the same
way. -/
def constTransport (reply : Reply) : Transport Unit :=
  fun _ b => (reply, b)

/-- The world before anything was logged or sent. -/
def World.fresh : World Unit := ⟨(), [], []⟩

/-! ## Sequences of calls -/

/-- One call of the API of the module. -/
inductive Call where
  | sendMessage (args : List JsVal) : Call
  | checkHealth : Call

/-- The body a call runs. -/
def Call.body : Call → Prog
  | Call.sendMessage args => chatAPI.sendMessage args
  | Call.checkHealth => chatAPI.checkHealth

/-- The request of the wire contract for a call, read off the arguments of that
call alone. -/
def Call.wireRequest : Call → Request
  | Call.sendMessage args =>
      ⟨Method.POST, "http://localhost:8000/api/chat",
        some (JsVal.obj [("message", param args 0),
          ("session_id", defaultParam (param args 1) JsVal.null)]), none⟩
  | Call.checkHealth => ⟨Method.GET, "http://localhost:8000/api/health", none, none⟩

/-- Runs calls one after the other against the same world, each awaited before
the next starts; returns their outcomes in order. -/
def runCalls {σ : Type} (t : Transport σ) : List Call → World σ → List Outcome × World σ
  | [], w => ([], w)
  | c :: cs, w =>
      ((run t c.body w).1 :: (runCalls t cs (run t c.body w).2).1,
        (runCalls t cs (run t c.body w).2).2)

/-! ## Calls in flight together -/

/-- A call that has been invoked: suspended at the `await` of a request, with the
rest of its body, or settled. -/
inductive Task where
  | suspended (req : Request) (next : Reply → Prog) : Task
  | settled (outcome : Outcome) : Task

/-- Runs a body until it suspends at a request or finishes, appending what it
writes to the console. -/
def advance : Prog → List (List JsVal) → Task × List (List JsVal)
  | Prog.ret v, console => (Task.settled (Except.ok v), console)
  | Prog.throw e, console => (Task.settled (Except.error e), console)
  | Prog.consoleError args next, console => advance next (console ++ [args])
  | Prog.request req next, console => (Task.suspended req next, console)

/-- The request a task has just issued, if it is suspended. -/
def Task.issued : Task → List Request
  | Task.suspended req _ => [req]
  | Task.settled _ => []

/-- The calls invoked so far, the shared console, and the requests issued so far
in the order of issue. -/
structure Pool where
  tasks : List Task
  console : List (List JsVal)
  wire : List Request

/-- The pool before any call. -/
def Pool.empty : Pool := ⟨[], [], []⟩

/-- Invokes a call: its body runs at once up to its first `await`, then the caller
goes on without waiting for it. -/
def Pool.invoke (p : Pool) (body : Prog) : Pool :=
  ⟨p.tasks ++ [(advance body p.console).1], (advance body p.console).2,
    p.wire ++ (advance body p.console).1.issued⟩

/-- Invokes calls of `chatAPI.sendMessage` one after the other without awaiting
any of them. -/
def Pool.invokeAll (p : Pool) (calls : List (List JsVal)) : Pool :=
  calls.foldl (fun q args => q.invoke (chatAPI.sendMessage args)) p

/-- The request of task `i` settles with `reply`: if the task is suspended it
resumes and runs to its next `await` or to its end; otherwise nothing happens. -/
def Pool.deliver (p : Pool) (i : Nat) (reply : Reply) : Pool :=
  match p.tasks[i]? with
  | some (Task.suspended _ next) =>
      ⟨p.tasks.set i (advance (next reply) p.console).1,
        (advance (next reply) p.console).2,
        p.wire ++ (advance (next reply) p.console).1.issued⟩
  | _ => p

/-- Settles the requests of the tasks listed in `order`, in that order; the
request of task `i` settles with `replyOf i`. -/
def Pool.settleAll (p : Pool) (replyOf : Nat → Reply) (order : List Nat) : Pool :=
  order.foldl (fun q i => q.deliver i (replyOf i)) p

/-- A task suspended at a request whose remaining body, once the request settles,
finishes at once with the outcome of the reply and logs under `label` on
rejection only. -/
def Resumable (label : JsVal) (task : Task) : Prop :=
  ∃ req next, task = Task.suspended req next ∧
    ∀ reply console,
      advance (next reply) console
        = (Task.settled (settle reply), console ++ failureLog label reply)

/-- Every task of the pool either is settled with the outcome of the reply meant
for it or is still suspended at the request of a `chatAPI.sendMessage` call. -/
def Pool.Sound (replyOf : Nat → Reply) (p : Pool) : Prop :=
  ∀ i task, p.tasks[i]? = some task →
    task = Task.settled (settle (replyOf i)) ∨ Resumable (JsVal.str "API Error:") task

/-- Replies of a backend to two chat requests in flight: a story for each of the
two sessions. -/
def twoReplies : Nat → Reply
  | 0 => Except.ok ⟨JsVal.obj [("response", JsVal.str "A dragon woke."),
      ("session_id", JsVal.str "s-A")], 200, "OK", JsVal.obj []⟩
  | _ => Except.ok ⟨JsVal.obj [("response", JsVal.str "A ship sailed."),
      ("session_id", JsVal.str "s-B")], 200, "OK", JsVal.obj []⟩

/-! ## Lemmas on running a guarded request -/

theorem chat_url : API_BASE_URL ++ "/chat" = "http://localhost:8000/api/chat" := by
  decide

theorem health_url : API_BASE_URL ++ "/health" = "http://localhost:8000/api/health" := by
  decide

/-- Running `try { const response = await req; return response.data } catch (error)
{ console.error(label, error); throw error }`: one exchange goes onto the wire,
the outcome is the one the reply settles to, and the console grows by the
failure log of the reply. -/
theorem run_guarded {σ : Type} (t : Transport σ) (w : World σ) (req : Request)
    (label : JsVal) :
    run t (tryCatch (await req (fun response => Prog.ret response.data))
        (fun error => Prog.consoleError [label, error] (Prog.throw error))) w =
      (settle (t req w.backend).1,
        ⟨(t req w.backend).2, w.console ++ failureLog label (t req w.backend).1,
          w.wire ++ [⟨req, (t req w.backend).1⟩]⟩) := by
  simp only [await, tryCatch, run]
  cases (t req w.backend).1 <;> simp [tryCatch, run, settle, failureLog]

theorem run_sendMessage {σ : Type} (t : Transport σ) (w : World σ) (args : List JsVal) :
    run t (chatAPI.sendMessage args) w =
      (settle (t (axios.post "http://localhost:8000/api/chat"
          (JsVal.obj [("message", param args 0),
            ("session_id", defaultParam (param args 1) JsVal.null)])) w.backend).1,
        ⟨(t (axios.post "http://localhost:8000/api/chat"
          (JsVal.obj [("message", param args 0),
            ("session_id", defaultParam (param args 1) JsVal.null)])) w.backend).2,
          w.console ++ failureLog (JsVal.str "API Error:")
            (t (axios.post "http://localhost:8000/api/chat"
              (JsVal.obj [("message", param args 0),
                ("session_id", defaultParam (param args 1) JsVal.null)])) w.backend).1,
          w.wire ++ [⟨axios.post "http://localhost:8000/api/chat"
              (JsVal.obj [("message", param args 0),
                ("session_id", defaultParam (param args 1) JsVal.null)]),
            (t (axios.post "http://localhost:8000/api/chat"
              (JsVal.obj [("message", param args 0),
                ("session_id", defaultParam (param args 1) JsVal.null)])) w.backend).1⟩]⟩) := by
  simp only [chatAPI.sendMessage, chat_url]
  exact run_guarded t w _ _

theorem run_checkHealth {σ : Type} (t : Transport σ) (w : World σ) :
    run t chatAPI.checkHealth w =
      (settle (t (axios.get "http://localhost:8000/api/health") w.backend).1,
        ⟨(t (axios.get "http://localhost:8000/api/health") w.backend).2,
          w.console ++ failureLog (JsVal.str "Health check failed:")
            (t (axios.get "http://localhost:8000/api/health") w.backend).1,
          w.wire ++ [⟨axios.get "http://localhost:8000/api/health",
            (t (axios.get "http://localhost:8000/api/health") w.backend).1⟩]⟩) := by
  simp only [chatAPI.checkHealth, health_url]
  exact run_guarded t w _ _

theorem defaultParam_present (s d : JsVal) (hs : s ≠ JsVal.undefined) :
    defaultParam s d = s := by
  cases s <;> simp_all [defaultParam]

theorem failureLog_length (label : JsVal) (reply : Reply) :
    (failureLog label reply).length = if failed (settle reply) then 1 else 0 := by
  cases reply <;> simp [failureLog, settle, failed]

theorem run_call {σ : Type} (t : Transport σ) (w : World σ) (c : Call) :
    (run t c.body w).1 = settle (t c.wireRequest w.backend).1
    ∧ (run t c.body w).2.wire
      = w.wire ++ [⟨c.wireRequest, (t c.wireRequest w.backend).1⟩] := by
  cases c with
  | sendMessage args =>
      simp [Call.body, Call.wireRequest, run_sendMessage, axios.post]
  | checkHealth =>
      simp [Call.body, Call.wireRequest, run_checkHealth, axios.get]

theorem runCalls_exchanges {σ : Type} (t : Transport σ) (calls : List Call) :
    ∀ w : World σ, ∃ replies : List Reply,
      replies.length = calls.length
      ∧ (runCalls t calls w).2.wire
        = w.wire ++ List.zipWith Exchange.mk (calls.map Call.wireRequest) replies
      ∧ (runCalls t calls w).1 = replies.map settle := by
  induction calls with
  | nil =>
      intro w
      exact ⟨[], rfl, by simp [runCalls], by simp [runCalls]⟩
  | cons c cs ih =>
      intro w
      obtain ⟨replies, hlen, hwire, hout⟩ := ih (run t c.body w).2
      refine ⟨(t c.wireRequest w.backend).1 :: replies, by simp [hlen], ?_, ?_⟩
      · simp [runCalls, hwire, (run_call t w c).2]
      · simp [runCalls, hout, (run_call t w c).1]

/-! ## Lemmas on calls in flight -/

theorem advance_sendMessage (args : List JsVal) (console : List (List JsVal)) :
    (advance (chatAPI.sendMessage args) console).2 = console
    ∧ (advance (chatAPI.sendMessage args) console).1.issued
      = [(Call.sendMessage args).wireRequest]
    ∧ Resumable (JsVal.str "API Error:") (advance (chatAPI.sendMessage args) console).1 := by
  refine ⟨rfl, ?_, ?_⟩
  · simp [chatAPI.sendMessage, await, tryCatch, advance, Task.issued, Call.wireRequest,
      axios.post, chat_url]
  · refine ⟨_, _, rfl, ?_⟩
    intro reply c
    cases reply <;> simp [tryCatch, advance, settle, failureLog]

theorem deliver_sound (replyOf : Nat → Reply) (p : Pool) (i : Nat)
    (hp : p.Sound replyOf) : (p.deliver i (replyOf i)).Sound replyOf := by
  unfold Pool.deliver
  split
  · rename_i req next hi
    rcases hp i _ hi with h | ⟨req2, next2, h, hnext⟩
    · cases h
    · injection h with _ hn
      subst hn
      intro j task hj
      simp only [hnext] at hj
      by_cases hji : i = j
      · subst hji
        have hlt : i < p.tasks.length := by
          rcases Nat.lt_or_ge i p.tasks.length with h | h
          · exact h
          · simp [List.getElem?_eq_none h] at hi
        rw [List.getElem?_set_self hlt] at hj
        left
        exact (Option.some.inj hj).symm
      · rw [List.getElem?_set_ne hji] at hj
        exact hp j task hj
  · exact hp

theorem deliver_settles (replyOf : Nat → Reply) (p : Pool) (i : Nat)
    (hp : p.Sound replyOf) (hi : i < p.tasks.length) :
    (p.deliver i (replyOf i)).tasks[i]? = some (Task.settled (settle (replyOf i))) := by
  have hget : p.tasks[i]? = some p.tasks[i] := List.getElem?_eq_getElem hi
  rcases hp i _ hget with h | ⟨req, next, h, hnext⟩
  · simp [Pool.deliver, hget, h]
  · simp [Pool.deliver, hget, h, hnext, List.getElem?_set_self hi]

theorem deliver_length (p : Pool) (i : Nat) (reply : Reply) :
    (p.deliver i reply).tasks.length = p.tasks.length := by
  unfold Pool.deliver
  split <;> simp

theorem deliver_keeps_settled (p : Pool) (i j : Nat) (reply : Reply) (o : Outcome)
    (hj : p.tasks[j]? = some (Task.settled o)) :
    (p.deliver i reply).tasks[j]? = some (Task.settled o) := by
  unfold Pool.deliver
  split
  · rename_i req next hi
    by_cases hij : i = j
    · subst hij
      rw [hi] at hj
      cases hj
    · simp only [List.getElem?_set_ne hij, hj]
  · exact hj

theorem settleAll_sound (replyOf : Nat → Reply) (order : List Nat) :
    ∀ p : Pool, p.Sound replyOf → (p.settleAll replyOf order).Sound replyOf := by
  induction order with
  | nil => intro p hp; exact hp
  | cons i rest ih =>
      intro p hp
      exact ih _ (deliver_sound replyOf p i hp)

theorem settleAll_length (replyOf : Nat → Reply) (order : List Nat) :
    ∀ p : Pool, (p.settleAll replyOf order).tasks.length = p.tasks.length := by
  induction order with
  | nil => intro p; rfl
  | cons i rest ih =>
      intro p
      exact (ih _).trans (deliver_length p i _)

theorem settleAll_keeps_settled (replyOf : Nat → Reply) (order : List Nat) (j : Nat)
    (o : Outcome) :
    ∀ p : Pool, p.tasks[j]? = some (Task.settled o) →
      (p.settleAll replyOf order).tasks[j]? = some (Task.settled o) := by
  induction order with
  | nil => intro p hj; exact hj
  | cons i rest ih =>
      intro p hj
      exact ih _ (deliver_keeps_settled p i j _ o hj)

theorem settleAll_append (replyOf : Nat → Reply) (p : Pool) (pre post : List Nat) :
    p.settleAll replyOf (pre ++ post) = (p.settleAll replyOf pre).settleAll replyOf post := by
  simp [Pool.settleAll, List.foldl_append]

theorem settleAll_settles (replyOf : Nat → Reply) (order : List Nat) (p : Pool) (i : Nat)
    (hp : p.Sound replyOf) (hi : i < p.tasks.length) (hmem : i ∈ order) :
    (p.settleAll replyOf order).tasks[i]? = some (Task.settled (settle (replyOf i))) := by
  obtain ⟨pre, post, rfl⟩ := List.append_of_mem hmem
  rw [settleAll_append]
  have hpre := settleAll_sound replyOf pre p hp
  have hlen : i < (p.settleAll replyOf pre).tasks.length := by
    rw [settleAll_length]
    exact hi
  exact settleAll_keeps_settled replyOf post i _ _
    (deliver_settles replyOf _ i hpre hlen)

theorem invokeAll_spec (replyOf : Nat → Reply) (calls : List (List JsVal)) :
    ∀ p : Pool, p.Sound replyOf →
      (p.invokeAll calls).Sound replyOf
      ∧ (p.invokeAll calls).tasks.length = p.tasks.length + calls.length
      ∧ (p.invokeAll calls).wire
        = p.wire ++ calls.map (fun args => (Call.sendMessage args).wireRequest)
      ∧ (p.invokeAll calls).console = p.console := by
  induction calls with
  | nil => intro p hp; exact ⟨hp, by simp [Pool.invokeAll], by simp [Pool.invokeAll], rfl⟩
  | cons args rest ih =>
      intro p hp
      obtain ⟨hc, hissued, hres⟩ := advance_sendMessage args p.console
      have hq : (p.invoke (chatAPI.sendMessage args)).Sound replyOf := by
        intro j task hj
        simp only [Pool.invoke] at hj
        by_cases hlt : j < p.tasks.length
        · rw [List.getElem?_append_left hlt] at hj
          exact hp j task hj
        · have hge : p.tasks.length ≤ j := Nat.le_of_not_lt hlt
          rw [List.getElem?_append_right hge] at hj
          right
          cases hk : j - p.tasks.length with
          | zero =>
              rw [hk] at hj
              simp at hj
              rw [← hj]
              exact hres
          | succ k =>
              rw [hk] at hj
              simp at hj
      obtain ⟨h1, h2, h3, h4⟩ := ih _ hq
      refine ⟨h1, ?_, ?_, ?_⟩
      · simp only [Pool.invokeAll, List.foldl_cons] at h2 ⊢
        rw [h2]
        simp [Pool.invoke]
        omega
      · simp only [Pool.invokeAll, List.foldl_cons] at h3 ⊢
        rw [h3]
        simp [Pool.invoke, hissued]
      · simp only [Pool.invokeAll, List.foldl_cons] at h4 ⊢
        rw [h4]
        simp [Pool.invoke, hc]

theorem empty_sound (replyOf : Nat → Reply) : Pool.empty.Sound replyOf := by
  intro i task h
  simp [Pool.empty] at h

/-! ## The claims -/

/-- C1: whenever the POST of `chatAPI.sendMessage(message, sessionId)` is fulfilled
with an envelope `r`, whatever the message and whether or not a session
identifier is passed, the call is fulfilled with exactly `r.data`: the payload
field alone, whatever the status, status text and headers of the envelope. -/
theorem sendMessage_returns_payload {σ : Type} (t : Transport σ) (w : World σ)
    (args : List JsVal) (r : Envelope)
    (hpost : (t (axios.post "http://localhost:8000/api/chat"
        (JsVal.obj [("message", param args 0),
          ("session_id", defaultParam (param args 1) JsVal.null)])) w.backend).1
      = Except.ok r) :
    (run t (chatAPI.sendMessage args) w).1 = Except.ok r.data := by
  rw [run_sendMessage, hpost]
  rfl

theorem sendMessage_returns_payload_witness :
    (constTransport (Except.ok ⟨JsVal.obj [("response", JsVal.str "Once upon a time"),
          ("session_id", JsVal.str "abc123")], 200, "OK", JsVal.obj []⟩)
        (axios.post "http://localhost:8000/api/chat"
          (JsVal.obj [("message", param [JsVal.str "hi"] 0),
            ("session_id", defaultParam (param [JsVal.str "hi"] 1) JsVal.null)]))
        World.fresh.backend).1
      = Except.ok ⟨JsVal.obj [("response", JsVal.str "Once upon a time"),
          ("session_id", JsVal.str "abc123")], 200, "OK", JsVal.obj []⟩
    ∧ (run (constTransport (Except.ok ⟨JsVal.obj [("response", JsVal.str "Once upon a time"),
          ("session_id", JsVal.str "abc123")], 200, "OK", JsVal.obj []⟩))
        (chatAPI.sendMessage [JsVal.str "hi"]) World.fresh).1
      = Except.ok (JsVal.obj [("response", JsVal.str "Once upon a time"),
          ("session_id", JsVal.str "abc123")]) :=
  ⟨rfl, sendMessage_returns_payload _ World.fresh [JsVal.str "hi"] _ rfl⟩

/-- C2: when `chatAPI.sendMessage` is called with `sessionId` omitted, or passed as
`undefined`, the one request it issues carries the body with exactly the two
fields `message` (the message passed) and `session_id` with value `null`. -/
theorem sendMessage_omitted_session_is_null {σ : Type} (t : Transport σ) (w : World σ)
    (m : JsVal) :
    ((run t (chatAPI.sendMessage [m]) w).2.wire.map Exchange.request
        = w.wire.map Exchange.request ++
          [⟨Method.POST, "http://localhost:8000/api/chat",
            some (JsVal.obj [("message", m), ("session_id", JsVal.null)]), none⟩])
    ∧ ((run t (chatAPI.sendMessage [m, JsVal.undefined]) w).2.wire.map Exchange.request
        = w.wire.map Exchange.request ++
          [⟨Method.POST, "http://localhost:8000/api/chat",
            some (JsVal.obj [("message", m), ("session_id", JsVal.null)]), none⟩]) := by
  constructor <;> simp [run_sendMessage, param, defaultParam, axios.post]

/-- C3: when `chatAPI.sendMessage(m, s)` is called with a session identifier `s`
that is present (not `undefined`), the one request it issues carries exactly the
body with `message` equal to `m` and `session_id` equal to `s`, both as passed. -/
theorem sendMessage_forwards_arguments {σ : Type} (t : Transport σ) (w : World σ)
    (m s : JsVal) (hs : s ≠ JsVal.undefined) :
    (run t (chatAPI.sendMessage [m, s]) w).2.wire.map Exchange.request
      = w.wire.map Exchange.request ++
        [⟨Method.POST, "http://localhost:8000/api/chat",
          some (JsVal.obj [("message", m), ("session_id", s)]), none⟩] := by
  simp [run_sendMessage, param, defaultParam_present s _ hs, axios.post]

theorem sendMessage_forwards_arguments_witness :
    JsVal.str "" ≠ JsVal.undefined
    ∧ (run (constTransport (Except.error (JsVal.str "Network Error")))
        (chatAPI.sendMessage [JsVal.str "", JsVal.str ""]) World.fresh).2.wire.map
          Exchange.request
      = World.fresh.wire.map Exchange.request ++
        [⟨Method.POST, "http://localhost:8000/api/chat",
          some (JsVal.obj [("message", JsVal.str ""), ("session_id", JsVal.str "")]),
          none⟩] :=
  ⟨by simp, sendMessage_forwards_arguments _ World.fresh (JsVal.str "") (JsVal.str "")
    (by simp)⟩

/-- C4: whenever the POST of `chatAPI.sendMessage` is rejected with an error `e`,
the call is rejected with that same `e`, and by then the console holds exactly
one more entry: the label `API Error:` followed by `e`. -/
theorem sendMessage_rethrows_and_logs {σ : Type} (t : Transport σ) (w : World σ)
    (args : List JsVal) (e : JsVal)
    (hpost : (t (axios.post "http://localhost:8000/api/chat"
        (JsVal.obj [("message", param args 0),
          ("session_id", defaultParam (param args 1) JsVal.null)])) w.backend).1
      = Except.error e) :
    (run t (chatAPI.sendMessage args) w).1 = Except.error e
    ∧ (run t (chatAPI.sendMessage args) w).2.console
      = w.console ++ [[JsVal.str "API Error:", e]] := by
  rw [run_sendMessage, hpost]
  exact ⟨rfl, rfl⟩

theorem sendMessage_rethrows_and_logs_witness :
    (constTransport (Except.error (JsVal.obj [("message", JsVal.str "Network Error")]))
        (axios.post "http://localhost:8000/api/chat"
          (JsVal.obj [("message", param [JsVal.str "hi", JsVal.str "abc123"] 0),
            ("session_id",
              defaultParam (param [JsVal.str "hi", JsVal.str "abc123"] 1) JsVal.null)]))
        World.fresh.backend).1
      = Except.error (JsVal.obj [("message", JsVal.str "Network Error")])
    ∧ (run (constTransport
          (Except.error (JsVal.obj [("message", JsVal.str "Network Error")])))
        (chatAPI.sendMessage [JsVal.str "hi", JsVal.str "abc123"]) World.fresh).1
      = Except.error (JsVal.obj [("message", JsVal.str "Network Error")])
    ∧ (run (constTransport
          (Except.error (JsVal.obj [("message", JsVal.str "Network Error")])))
        (chatAPI.sendMessage [JsVal.str "hi", JsVal.str "abc123"]) World.fresh).2.console
      = World.fresh.console ++ [[JsVal.str "API Error:",
          JsVal.obj [("message", JsVal.str "Network Error")]]] :=
  ⟨rfl, sendMessage_rethrows_and_logs _ World.fresh
    [JsVal.str "hi", JsVal.str "abc123"] _ rfl⟩

/-- C5: `chatAPI.checkHealth()` issues one GET, without a body, to
`http://localhost:8000/api/health` (the base address followed by `/health`), and
whenever that GET is fulfilled with an envelope `r` the call is fulfilled with
exactly `r.data`. -/
theorem checkHealth_request_and_payload {σ : Type} (t : Transport σ) (w : World σ) :
    API_BASE_URL ++ "/health" = "http://localhost:8000/api/health"
    ∧ (run t chatAPI.checkHealth w).2.wire.map Exchange.request
      = w.wire.map Exchange.request ++
        [⟨Method.GET, "http://localhost:8000/api/health", none, none⟩]
    ∧ ∀ r : Envelope,
        (t ⟨Method.GET, "http://localhost:8000/api/health", none, none⟩ w.backend).1
          = Except.ok r →
        (run t chatAPI.checkHealth w).1 = Except.ok r.data := by
  refine ⟨health_url, ?_, ?_⟩
  · simp [run_checkHealth, axios.get]
  · intro r hget
    rw [run_checkHealth]
    simp only [axios.get, hget]
    rfl

theorem checkHealth_request_and_payload_witness :
    (constTransport (Except.ok ⟨JsVal.obj [("status", JsVal.str "ok")], 200, "OK",
          JsVal.obj []⟩)
        ⟨Method.GET, "http://localhost:8000/api/health", none, none⟩
        World.fresh.backend).1
      = Except.ok ⟨JsVal.obj [("status", JsVal.str "ok")], 200, "OK", JsVal.obj []⟩
    ∧ (run (constTransport (Except.ok ⟨JsVal.obj [("status", JsVal.str "ok")], 200, "OK",
          JsVal.obj []⟩)) chatAPI.checkHealth World.fresh).1
      = Except.ok (JsVal.obj [("status", JsVal.str "ok")]) :=
  ⟨rfl, (checkHealth_request_and_payload _ World.fresh).2.2 _ rfl⟩

/-- C6: whenever the GET of `chatAPI.checkHealth` is rejected with an error `e`,
the call is rejected with that same `e` and the console holds exactly one more
entry, the label `Health check failed:` followed by `e`; and the label under
which a failing `chatAPI.sendMessage` logs is a different one. -/
theorem checkHealth_rethrows_and_logs {σ τ : Type} (t : Transport σ) (w : World σ)
    (e : JsVal) (t2 : Transport τ) (w2 : World τ) (args : List JsVal) (e2 : JsVal)
    (hget : (t (axios.get "http://localhost:8000/api/health") w.backend).1
      = Except.error e)
    (hpost : (t2 (axios.post "http://localhost:8000/api/chat"
        (JsVal.obj [("message", param args 0),
          ("session_id", defaultParam (param args 1) JsVal.null)])) w2.backend).1
      = Except.error e2) :
    (run t chatAPI.checkHealth w).1 = Except.error e
    ∧ (run t chatAPI.checkHealth w).2.console
      = w.console ++ [[JsVal.str "Health check failed:", e]]
    ∧ ∃ label, (run t2 (chatAPI.sendMessage args) w2).2.console
        = w2.console ++ [[label, e2]]
      ∧ label ≠ JsVal.str "Health check failed:" := by
  refine ⟨?_, ?_, JsVal.str "API Error:", ?_, ?_⟩
  · rw [run_checkHealth, hget]
    rfl
  · rw [run_checkHealth, hget]
    rfl
  · rw [run_sendMessage, hpost]
    rfl
  · intro h
    injection h with h
    revert h
    decide

theorem checkHealth_rethrows_and_logs_witness :
    ((constTransport (Except.error (JsVal.str "ECONNREFUSED"))
        (axios.get "http://localhost:8000/api/health") World.fresh.backend).1
      = Except.error (JsVal.str "ECONNREFUSED")
    ∧ (constTransport (Except.error (JsVal.str "ETIMEDOUT"))
        (axios.post "http://localhost:8000/api/chat"
          (JsVal.obj [("message", param [JsVal.str "hi"] 0),
            ("session_id", defaultParam (param [JsVal.str "hi"] 1) JsVal.null)]))
        World.fresh.backend).1
      = Except.error (JsVal.str "ETIMEDOUT"))
    ∧ (run (constTransport (Except.error (JsVal.str "ECONNREFUSED")))
        chatAPI.checkHealth World.fresh).1 = Except.error (JsVal.str "ECONNREFUSED")
    ∧ (run (constTransport (Except.error (JsVal.str "ECONNREFUSED")))
        chatAPI.checkHealth World.fresh).2.console
      = World.fresh.console
        ++ [[JsVal.str "Health check failed:", JsVal.str "ECONNREFUSED"]]
    ∧ ∃ label, (run (constTransport (Except.error (JsVal.str "ETIMEDOUT")))
          (chatAPI.sendMessage [JsVal.str "hi"]) World.fresh).2.console
        = World.fresh.console ++ [[label, JsVal.str "ETIMEDOUT"]]
      ∧ label ≠ JsVal.str "Health check failed:" :=
  ⟨⟨rfl, rfl⟩, checkHealth_rethrows_and_logs _ World.fresh _ _ World.fresh
    [JsVal.str "hi"] _ rfl rfl⟩

/-- C7: every call of `chatAPI.sendMessage`, whatever its arguments and whether
its request is fulfilled or rejected, puts exactly one exchange on the wire: a
POST to `http://localhost:8000/api/chat` (the base address followed by `/chat`)
that carries a body and no config argument (no headers, no query parameters). -/
theorem sendMessage_issues_one_post {σ : Type} (t : Transport σ) (w : World σ)
    (args : List JsVal) :
    API_BASE_URL ++ "/chat" = "http://localhost:8000/api/chat"
    ∧ ∃ body reply, (run t (chatAPI.sendMessage args) w).2.wire
        = w.wire ++
          [⟨⟨Method.POST, "http://localhost:8000/api/chat", some body, none⟩, reply⟩] := by
  refine ⟨chat_url,
    JsVal.obj [("message", param args 0),
      ("session_id", defaultParam (param args 1) JsVal.null)],
    (t (axios.post "http://localhost:8000/api/chat"
      (JsVal.obj [("message", param args 0),
        ("session_id", defaultParam (param args 1) JsVal.null)])) w.backend).1, ?_⟩
  rw [run_sendMessage]
  rfl

/-- C8: a call of `chatAPI.sendMessage` or of `chatAPI.checkHealth` whose request is
fulfilled leaves the console as it was, and the number of console entries a
call adds is 1 if the call fails and 0 if it succeeds. -/
theorem console_entry_on_failure_only {σ : Type} (t : Transport σ) (w : World σ)
    (args : List JsVal) :
    ((∀ r : Envelope,
        (t (axios.post "http://localhost:8000/api/chat"
          (JsVal.obj [("message", param args 0),
            ("session_id", defaultParam (param args 1) JsVal.null)])) w.backend).1
          = Except.ok r →
        (run t (chatAPI.sendMessage args) w).2.console = w.console)
      ∧ (run t (chatAPI.sendMessage args) w).2.console.length
        = w.console.length
          + if failed (run t (chatAPI.sendMessage args) w).1 then 1 else 0)
    ∧ ((∀ r : Envelope,
        (t (axios.get "http://localhost:8000/api/health") w.backend).1 = Except.ok r →
        (run t chatAPI.checkHealth w).2.console = w.console)
      ∧ (run t chatAPI.checkHealth w).2.console.length
        = w.console.length + if failed (run t chatAPI.checkHealth w).1 then 1 else 0) := by
  refine ⟨⟨?_, ?_⟩, ⟨?_, ?_⟩⟩
  · intro r hpost
    rw [run_sendMessage, hpost]
    simp [failureLog]
  · rw [run_sendMessage]
    simp only [List.length_append, failureLog_length]
  · intro r hget
    rw [run_checkHealth, hget]
    simp [failureLog]
  · rw [run_checkHealth]
    simp only [List.length_append, failureLog_length]

theorem console_entry_on_failure_only_witness :
    (constTransport (Except.ok ⟨JsVal.obj [("status", JsVal.str "ok")], 200, "OK",
          JsVal.obj []⟩)
        (axios.get "http://localhost:8000/api/health") World.fresh.backend).1
      = Except.ok ⟨JsVal.obj [("status", JsVal.str "ok")], 200, "OK", JsVal.obj []⟩
    ∧ (run (constTransport (Except.ok ⟨JsVal.obj [("status", JsVal.str "ok")], 200, "OK",
          JsVal.obj []⟩)) chatAPI.checkHealth World.fresh).2.console
      = World.fresh.console
    ∧ (constTransport (Except.ok ⟨JsVal.obj [("status", JsVal.str "ok")], 200, "OK",
          JsVal.obj []⟩)
        (axios.post "http://localhost:8000/api/chat"
          (JsVal.obj [("message", param [JsVal.str "hi"] 0),
            ("session_id", defaultParam (param [JsVal.str "hi"] 1) JsVal.null)]))
        World.fresh.backend).1
      = Except.ok ⟨JsVal.obj [("status", JsVal.str "ok")], 200, "OK", JsVal.obj []⟩
    ∧ (run (constTransport (Except.ok ⟨JsVal.obj [("status", JsVal.str "ok")], 200, "OK",
          JsVal.obj []⟩)) (chatAPI.sendMessage [JsVal.str "hi"]) World.fresh).2.console
      = World.fresh.console :=
  ⟨rfl,
    (console_entry_on_failure_only _ World.fresh [JsVal.str "hi"]).2.1 _ rfl,
    rfl,
    (console_entry_on_failure_only _ World.fresh [JsVal.str "hi"]).1.1 _ rfl⟩

/-- C10: the client keeps no state between calls. Along every sequence of
`sendMessage` and `checkHealth` calls, against any backend (with state of its
own) and from any world, each call puts on the wire exactly the request read off
its own arguments and ends with the outcome of the reply to that request,
whatever calls came before and however they ended. In particular a
`sendMessage` with the session identifier omitted that follows a call made with
a session `s` still sends `session_id` as `null`. -/
theorem client_is_stateless {σ : Type} (t : Transport σ) (w : World σ)
    (calls : List Call) :
    (∃ replies : List Reply,
      replies.length = calls.length
      ∧ (runCalls t calls w).2.wire
        = w.wire ++ List.zipWith Exchange.mk (calls.map Call.wireRequest) replies
      ∧ (runCalls t calls w).1 = replies.map settle)
    ∧ ∀ m s m2 : JsVal,
        (runCalls t [Call.sendMessage [m, s], Call.sendMessage [m2]] w).2.wire.map
            Exchange.request
          = w.wire.map Exchange.request ++
            [⟨Method.POST, "http://localhost:8000/api/chat",
                some (JsVal.obj [("message", m),
                  ("session_id", defaultParam s JsVal.null)]), none⟩,
              ⟨Method.POST, "http://localhost:8000/api/chat",
                some (JsVal.obj [("message", m2), ("session_id", JsVal.null)]),
                none⟩] := by
  refine ⟨runCalls_exchanges t calls w, ?_⟩
  intro m s m2
  simp [runCalls, Call.body, run_sendMessage, param, defaultParam, axios.post]

/-- C9: calls of `chatAPI.sendMessage` in flight together do not interfere. When
any number of calls are invoked without awaiting one another, all their
requests are on the wire before any reply arrives, and in whatever order the
requests then settle, each call whose request has settled is settled with the
outcome of the reply to its own request: its payload when fulfilled, its error
when rejected. -/
theorem concurrent_sendMessage_independent (calls : List (List JsVal))
    (replyOf : Nat → Reply) (order : List Nat) (i : Nat)
    (hi : i < calls.length) (hmem : i ∈ order) :
    (Pool.empty.invokeAll calls).wire
      = calls.map (fun args => (Call.sendMessage args).wireRequest)
    ∧ ((Pool.empty.invokeAll calls).settleAll replyOf order).tasks[i]?
      = some (Task.settled (settle (replyOf i))) := by
  obtain ⟨hsound, hlen, hwire, _⟩ := invokeAll_spec replyOf calls Pool.empty
    (empty_sound replyOf)
  refine ⟨by simpa [Pool.empty] using hwire, ?_⟩
  apply settleAll_settles replyOf order _ i hsound _ hmem
  rw [hlen]
  simp [Pool.empty, hi]

theorem concurrent_sendMessage_independent_witness :
    0 < [[JsVal.str "a dragon", JsVal.str "s-A"],
        [JsVal.str "a ship", JsVal.str "s-B"]].length
    ∧ 0 ∈ [1, 0]
    ∧ (Pool.empty.invokeAll [[JsVal.str "a dragon", JsVal.str "s-A"],
          [JsVal.str "a ship", JsVal.str "s-B"]]).wire
        = [[JsVal.str "a dragon", JsVal.str "s-A"],
            [JsVal.str "a ship", JsVal.str "s-B"]].map
          (fun args => (Call.sendMessage args).wireRequest)
    ∧ ((Pool.empty.invokeAll [[JsVal.str "a dragon", JsVal.str "s-A"],
          [JsVal.str "a ship", JsVal.str "s-B"]]).settleAll twoReplies [1, 0]).tasks[0]?
        = some (Task.settled (Except.ok (JsVal.obj [("response", JsVal.str "A dragon woke."),
            ("session_id", JsVal.str "s-A")]))) :=
  ⟨by decide, by decide,
    concurrent_sendMessage_independent
      [[JsVal.str "a dragon", JsVal.str "s-A"], [JsVal.str "a ship", JsVal.str "s-B"]]
      twoReplies [1, 0] 0 (by decide) (by decide)⟩

end ChatClient
